import Mathlib

/-!
Verification of the Hardstop/Sentinel supply-chain alert pipeline.

This file shallowly embeds the parts of the repository that the checked
claims are about:

* the network impact scorer (src/src/sentinel/alerts/impact_scorer.py and
  the hardstop variant imported by src/src/hardstop/alerts/alert_builder.py),
* the quality validator and classification policy composition
  (src/src/hardstop/alerts/alert_builder.py),
* the high-impact keyword detector (same file),
* scope merging for correlated alerts (same file),
* lane resolution (src/src/sentinel/parsing/network_linker.py and
  src/src/hardstop/parsing/entity_extractor.py),
* the raw-item repository (src/src/sentinel/database/raw_item_repo.py).

Modelling conventions, used throughout:

* Python strings are modelled as Lean `String`; all text processing is done
  on `String.data : List Char` with structural functions defined here, so
  that every definition evaluates inside the kernel.  The inputs handled by
  the program are ASCII, and the character classes of the regexes involved
  ([A-Z], [a-z], \d, \w, \s) are ASCII classes, so the ASCII treatment is
  faithful.
* Python floats are modelled as exact rationals (`ℚ`).  The embedded code
  only ever compares confidence values, never does arithmetic on them, and
  every float literal in the program has at most two decimal digits, whose
  IEEE-754 roundings compare exactly like the corresponding rationals.
* SQLAlchemy query results (.all()) are modelled as the filter of the
  corresponding inventory table in table order; .first() is the first
  matching row in table order.
* Dates are modelled by their ordinal day number (an `Int`); the calendar
  conversion follows the proleptic Gregorian calendar used by
  datetime.date, so date comparisons coincide with Int comparisons.
-/

/-! ### Text primitives (ASCII models of the Python string operations) -/

/-- Word character in the sense of the regex class \w (ASCII): letters,
digits, underscore. -/
def isWordChar (c : Char) : Bool :=
  c.isAlpha || c.isDigit || c = '_'

/-- ASCII uppercasing of one character, as Python str.upper does on ASCII. -/
def upChar (c : Char) : Char :=
  if c.isLower then Char.ofNat (c.toNat - 32) else c

/-- ASCII uppercasing of a character list (Python str.upper). -/
def upList (cs : List Char) : List Char := cs.map upChar

/-- Substring containment (the Python `in` operator on strings). -/
def containsSub (hay needle : List Char) : Bool :=
  match hay with
  | [] => needle.isEmpty
  | _ :: t => needle.isPrefixOf hay || containsSub t needle

/-- Splitting a character list at a separator character (used to model
datetime.strptime splitting a %Y-%m-%d string at the dashes). -/
def splitChar (sep : Char) (cs : List Char) : List (List Char) :=
  match cs with
  | [] => [[]]
  | c :: t =>
    let r := splitChar sep t
    if c = sep then [] :: r
    else
      match r with
      | [] => [[c]]
      | h :: t2 => (c :: h) :: t2

/-- Numeric value of a digit list, `none` unless every character is an ASCII
digit (and the list is nonempty). -/
def digitsToNat (cs : List Char) : Option Nat :=
  match cs with
  | [] => none
  | _ =>
    if cs.all (·.isDigit) then
      some (cs.foldl (fun acc c => acc * 10 + (c.toNat - 48)) 0)
    else none

/-- Lexicographic comparison of character lists by code point: the ordering
Python uses to compare and sort strings. -/
def pyStrLeChars (a b : List Char) : Bool :=
  match a, b with
  | [], _ => true
  | _ :: _, [] => false
  | x :: xs, y :: ys =>
    if x.toNat < y.toNat then true
    else if y.toNat < x.toNat then false
    else pyStrLeChars xs ys

/-- Python string ordering, as a relation on `String` for sorting. -/
def pyStrLe (a b : String) : Prop := pyStrLeChars a.data b.data = true

instance : DecidableRel pyStrLe := fun a b => by
  unfold pyStrLe; infer_instance

theorem pyStrLeChars_total (a b : List Char) :
    pyStrLeChars a b = true ∨ pyStrLeChars b a = true := by
  induction a generalizing b with
  | nil => left; rfl
  | cons x xs ih =>
    cases b with
    | nil => right; rfl
    | cons y ys =>
      by_cases hxy : x.toNat < y.toNat
      · left; simp [pyStrLeChars, hxy]
      · by_cases hyx : y.toNat < x.toNat
        · right; simp [pyStrLeChars, hyx]
        · rcases ih ys with h | h
          · left; simp [pyStrLeChars, hxy, hyx, h]
          · right; simp [pyStrLeChars, hxy, hyx, h]

theorem pyStrLeChars_trans (a b c : List Char)
    (hab : pyStrLeChars a b = true) (hbc : pyStrLeChars b c = true) :
    pyStrLeChars a c = true := by
  induction a generalizing b c with
  | nil => rfl
  | cons x xs ih =>
    cases b with
    | nil => simp [pyStrLeChars] at hab
    | cons y ys =>
      cases c with
      | nil => simp [pyStrLeChars] at hbc
      | cons z zs =>
        simp only [pyStrLeChars] at hab hbc ⊢
        rcases Nat.lt_trichotomy x.toNat y.toNat with hxy | hxy | hxy <;>
          rcases Nat.lt_trichotomy y.toNat z.toNat with hyz | hyz | hyz
        · simp [show x.toNat < z.toNat by omega]
        · simp [show x.toNat < z.toNat by omega]
        · rw [if_neg (show ¬ y.toNat < z.toNat by omega), if_pos hyz] at hbc
          exact Bool.noConfusion hbc
        · simp [show x.toNat < z.toNat by omega]
        · rw [if_neg (show ¬ x.toNat < y.toNat by omega),
            if_neg (show ¬ y.toNat < x.toNat by omega)] at hab
          rw [if_neg (show ¬ y.toNat < z.toNat by omega),
            if_neg (show ¬ z.toNat < y.toNat by omega)] at hbc
          rw [if_neg (show ¬ x.toNat < z.toNat by omega),
            if_neg (show ¬ z.toNat < x.toNat by omega)]
          exact ih ys zs hab hbc
        · rw [if_neg (show ¬ y.toNat < z.toNat by omega), if_pos hyz] at hbc
          exact Bool.noConfusion hbc
        · rw [if_neg (show ¬ x.toNat < y.toNat by omega), if_pos hxy] at hab
          exact Bool.noConfusion hab
        · rw [if_neg (show ¬ x.toNat < y.toNat by omega), if_pos hxy] at hab
          exact Bool.noConfusion hab
        · rw [if_neg (show ¬ x.toNat < y.toNat by omega), if_pos hxy] at hab
          exact Bool.noConfusion hab

instance : IsTotal String pyStrLe :=
  ⟨fun a b => pyStrLeChars_total a.data b.data⟩

instance : IsTrans String pyStrLe :=
  ⟨fun a b c => pyStrLeChars_trans a.data b.data c.data⟩

/-- Python sorted(set(xs)): the distinct elements in ascending string
order. -/
def sortedSet (xs : List String) : List String :=
  List.insertionSort pyStrLe xs.dedup

/-! ### Calendar (datetime.date via ordinal day numbers) -/

/-- Day count of a month in the proleptic Gregorian calendar. -/
def daysInMonth (y m : Nat) : Nat :=
  if m = 2 then
    if y % 4 = 0 && (y % 100 ≠ 0 || y % 400 = 0) then 29 else 28
  else if m = 4 || m = 6 || m = 9 || m = 11 then 30
  else 31

/-- Ordinal day number of a civil date (days-from-civil; all intermediate
divisions are on nonnegative operands for valid in-range dates, so the
rounding convention of Int division is immaterial). -/
def civilToDay (y m d : Nat) : Int :=
  let yy : Int := if m ≤ 2 then (y : Int) - 1 else (y : Int)
  let era : Int := yy / 400
  let yoe : Int := yy - era * 400
  let mp : Int := ((m : Int) + 9) % 12
  let doy : Int := (153 * mp + 2) / 5 + (d : Int) - 1
  let doe : Int := yoe * 365 + yoe / 4 - yoe / 100 + doy
  era * 146097 + doe - 719468

/-- datetime.strptime(s, %Y-%m-%d).date(): three dash-separated digit
groups (year up to 4 digits and at least 1, month and day up to 2),
validated as a real calendar date with year at least 1; the result is the
date's ordinal day number. -/
def parseYmd (s : String) : Option Int :=
  match splitChar '-' s.data with
  | [ys, ms, ds] =>
    match digitsToNat ys, digitsToNat ms, digitsToNat ds with
    | some y, some m, some d =>
      if ys.length ≤ 4 && ms.length ≤ 2 && ds.length ≤ 2 &&
          1 ≤ y && 1 ≤ m && m ≤ 12 && 1 ≤ d && d ≤ daysInMonth y m then
        some (civilToDay y m d)
      else none
    | _, _, _ => none
  | _ => none

/-! ### Data model: inventory (read-only during event processing) -/

/-- Facility row (facilities table); criticality_score is a nullable
integer column. -/
structure Facility where
  facilityId : String
  criticalityScore : Option Int
deriving DecidableEq

/-- Lane row (lanes table). -/
structure Lane where
  laneId : String
  originFacilityId : String
  destFacilityId : String
  volumeScore : Option Int
deriving DecidableEq

/-- Shipment row (shipments table); dates are stored as %Y-%m-%d strings. -/
structure Shipment where
  shipmentId : String
  laneId : String
  shipDate : Option String
  etaDate : Option String
  status : Option String
  priorityFlag : Option Int
deriving DecidableEq

/-- The inventory tables, in table order (models the database the
SQLAlchemy session queries). -/
structure Inventory where
  facilities : List Facility
  lanes : List Lane
  shipments : List Shipment
deriving DecidableEq

/-- Event dict as the alert builder and scorer consume it.  Optional fields
model dict.get defaults: a missing link_confidence entry is `none` and is
read back with the default 0.0 (never 1.0); a missing provenance is read
back as the empty string. -/
structure Event where
  facilities : List String
  lanes : List String
  shipments : List String
  eventType : String
  title : String
  rawText : String
  linkConfFacility : Option ℚ
  linkConfLanes : Option ℚ
  linkConfShipments : Option ℚ
  linkProvFacility : Option String
  trustTier : Int
  weightingBias : Int
  classificationFloor : Int

/-! ### Impact scorer
(src/src/sentinel/alerts/impact_scorer.py; the hardstop variant imported by
src/src/hardstop/alerts/alert_builder.py is modelled from the spec below) -/

/-- ASCII uppercasing of a whole string (Python str.upper). -/
def upStr (s : String) : String := String.mk (upList s.data)

/-- String shown for a nullable integer column in a breakdown line. -/
def optIntStr (o : Option Int) : String :=
  match o with
  | some n => toString n
  | none => "None"

/-- Set literal {"SPILL", "STRIKE", "CLOSURE"} of impact_scorer.py.  Python
set iteration order is unspecified; it is modelled as the literal order
(only membership is observable for this set). -/
def highImpactTypes : List String := ["SPILL", "STRIKE", "CLOSURE"]

/-- Set literal {"SPILL", "STRIKE", "CLOSURE", "CLOSED", "SHUTDOWN"}.
Python set iteration order is unspecified; the literal order is used both
for the membership test and for the `next(...)` pick of the breakdown
keyword. -/
def highImpactKeywords : List String :=
  ["SPILL", "STRIKE", "CLOSURE", "CLOSED", "SHUTDOWN"]

/-- Facility rows the scorer queries: facilities whose id is among the
event's linked facility ids, in table order. -/
def facilityRows (ev : Event) (db : Inventory) : List Facility :=
  db.facilities.filter (fun f => ev.facilities.contains f.facilityId)

/-- Condition of the facility loop body: `facility.criticality_score and
facility.criticality_score >= 7` (a NULL or zero score is falsy; zero can
never reach 7, so truthiness collapses into the comparison). -/
def critHit (f : Facility) : Bool :=
  f.criticalityScore.any (fun c => decide (7 ≤ c))

/-- Lane rows the scorer queries. -/
def laneRows (ev : Event) (db : Inventory) : List Lane :=
  db.lanes.filter (fun l => ev.lanes.contains l.laneId)

/-- Condition of the lane loop body (volume_score truthy and at least 7). -/
def volHit (l : Lane) : Bool :=
  l.volumeScore.any (fun v => decide (7 ≤ v))

/-- Priority shipments among the queried shipment rows
(`s.priority_flag == 1`). -/
def priorityRows (ev : Event) (db : Inventory) : List Shipment :=
  (db.shipments.filter (fun s => ev.shipments.contains s.shipmentId)).filter
    (fun s => decide (s.priorityFlag = some 1))

/-- Near-term ETA test of one priority shipment: eta_date is truthy,
parses as %Y-%m-%d, and lies in [today, today + 2 days].  (An empty
eta_date string is falsy in the code and unparseable here, so both are
rejected the same way.) -/
def etaNearTerm (today : Int) (s : Shipment) : Bool :=
  match s.etaDate with
  | some e =>
    match parseYmd e with
    | some eta => decide (today ≤ eta) && decide (eta ≤ today + 2)
    | none => false
  | none => false

/-- Number of priority shipments with a near-term ETA. -/
def nearTermCount (ev : Event) (db : Inventory) (today : Int) : Nat :=
  (priorityRows ev db).countP (etaNearTerm today)

/-- R7 text condition: event_type (uppercased) in the high-impact types, or
any high-impact keyword a substring of the uppercased title+raw_text. -/
def typeHit (ev : Event) : Bool :=
  highImpactTypes.contains (upStr ev.eventType)

/-- Keyword fallback of R7 (plain substring containment, not word-bounded). -/
def kwHit (ev : Event) : Bool :=
  highImpactKeywords.any
    (fun k => containsSub (upList (ev.title ++ " " ++ ev.rawText).data) k.data)

/-- Body of calculate_network_impact_score: the rule evaluation shared by
both scorer variants, with the date the 48-hour rule measures from made an
explicit parameter `today`.  The `if facility_ids:` / `if lane_ids:` /
`if shipment_ids:` guards around the queries are observationally redundant
(an empty id list filters every row out and makes every count zero) and
are elided; the for/break loops keep only the first qualifying row, which
is `List.find?`. -/
def impact_rule_score (ev : Event) (db : Inventory) (today : Int) :
    Int × List String :=
  let p1 : Int × List String :=
    match (facilityRows ev db).find? critHit with
    | some f =>
      let fid := f.facilityId
      let cs := optIntStr f.criticalityScore
      (2, [s!"+2: Facility criticality_score >= 7 ({fid}={cs})"])
    | none => (0, [])
  let p2 : Int × List String :=
    match (laneRows ev db).find? volHit with
    | some l =>
      let lid := l.laneId
      let vs := optIntStr l.volumeScore
      (1, [s!"+1: Lane volume_score >= 7 ({lid}={vs})"])
    | none => (0, [])
  let pc := (priorityRows ev db).length
  let nt := nearTermCount ev db today
  let p3 : Int × List String :=
    if 0 < pc then
      (1 + (if 5 ≤ pc then 1 else 0) + (if 0 < nt then 1 else 0),
        [s!"+1: Priority shipments found ({pc} total)"]
          ++ (if 5 ≤ pc then [s!"+1: >=5 priority shipments ({pc})"] else [])
          ++ (if 0 < nt then
                [s!"+1: Priority shipment ETA within 48h ({nt} shipments)"]
              else []))
    else (0, [])
  let sc := ev.shipments.length
  let p4 : Int × List String :=
    if 10 ≤ sc then (1, [s!"+1: Shipment count >= 10 ({sc})"]) else (0, [])
  let p5 : Int × List String :=
    if typeHit ev then
      let et := upStr ev.eventType
      (1, [s!"+1: Event type in high-impact types ({et})"])
    else if kwHit ev then
      let kw := (highImpactKeywords.find? (fun k =>
        containsSub (upList (ev.title ++ " " ++ ev.rawText).data) k.data)).getD
        "unknown"
      (1, [s!"+1: High-impact keyword detected ({kw})"])
    else (0, [])
  let score := p1.1 + p2.1 + p3.1 + p4.1 + p5.1
  let breakdown := p1.2 ++ p2.2 ++ p3.2 ++ p4.2 ++ p5.2
  (score, if breakdown.isEmpty then ["No impact factors detected"] else breakdown)

/-- calculate_network_impact_score of
src/src/sentinel/alerts/impact_scorer.py.  This variant takes no clock: the
line `today = datetime.now().date()` reads the ambient wall clock, which
the embedding makes explicit as the parameter `wallToday` (the ordinal day
of the real current date when the call runs). -/
def calculate_network_impact_score (ev : Event) (db : Inventory)
    (wallToday : Int) : Int × List String :=
  impact_rule_score ev db wallToday

/-- map_score_to_classification of src/src/sentinel/alerts/impact_scorer.py. -/
def map_score_to_classification (impactScore : Int) : Int :=
  if 4 ≤ impactScore then 2
  else if 2 ≤ impactScore then 1
  else 0

/-- Modelled from the spec: tier_bonus of the hardstop impact scorer
(hardstop/alerts/impact_scorer.py is imported by
src/src/hardstop/alerts/alert_builder.py but is not among the repository
files); spec section 4.4: tier_bonus(3)=+1, tier_bonus(2)=0,
tier_bonus(1)=-1. -/
def tier_bonus (trustTier : Int) : Int :=
  if trustTier = 3 then 1 else if trustTier = 1 then -1 else 0

/-- Modelled from the spec: calculate_network_impact_score of
hardstop/alerts/impact_scorer.py (the module src/src/hardstop/alerts/
alert_builder.py imports is not among the repository files).  Per spec
sections 4.4 and 9 it evaluates the same rules as the sentinel variant but
takes the injected clock `now`, returns a rationale as well, and applies
`score += weighting_bias + tier_bonus(trust_tier)` after rule scoring,
clamping the result to [0, 10].  The rationale string is not consumed by
any claim and is elided. -/
def hardstop_calculate_network_impact_score (ev : Event) (db : Inventory)
    (trustTier weightingBias : Int) (now : Int) : Int × List String :=
  let rules := impact_rule_score ev db now
  let adjusted := rules.1 + weightingBias + tier_bonus trustTier
  (min 10 (max 0 adjusted), rules.2)

/-- Declarative rule sum of spec section 4.4: every rule contributes its
points at most once, independently of the others. -/
def ruleSum (ev : Event) (db : Inventory) (today : Int) : Int :=
  (if (facilityRows ev db).any critHit then 2 else 0)
    + (if (laneRows ev db).any volHit then 1 else 0)
    + (if 0 < (priorityRows ev db).length then 1 else 0)
    + (if 5 ≤ (priorityRows ev db).length then 1 else 0)
    + (if 0 < nearTermCount ev db today then 1 else 0)
    + (if 10 ≤ ev.shipments.length then 1 else 0)
    + (if typeHit ev || kwHit ev then 1 else 0)

/-- Any-to-find bridge: a list has an element satisfying p exactly when
find? returns one. -/
theorem any_eq_isSome_find? {α : Type} (l : List α) (p : α → Bool) :
    l.any p = (l.find? p).isSome := by
  rcases h : l.find? p with _ | x
  · rw [List.find?_eq_none] at h
    rw [Option.isSome_none]
    rw [← Bool.not_eq_true, List.any_eq_true]
    rintro ⟨y, hy, hp⟩
    exact h y hy hp
  · rw [Option.isSome_some]
    rw [List.any_eq_true]
    exact ⟨x, List.mem_of_find?_eq_some h, List.find?_some h⟩

theorem impact_rule_score_fst (ev : Event) (db : Inventory) (today : Int) :
    (impact_rule_score ev db today).1 = ruleSum ev db today := by
  have hcount : nearTermCount ev db today ≤ (priorityRows ev db).length :=
    List.countP_le_length _
  unfold impact_rule_score ruleSum
  rw [any_eq_isSome_find?, any_eq_isSome_find?]
  rcases hf : (facilityRows ev db).find? critHit with _ | f <;>
    rcases hl : (laneRows ev db).find? volHit with _ | l <;>
      cases htype : typeHit ev <;> cases hkw : kwHit ev <;>
        simp only [hf, hl, htype, hkw, Option.isSome_none, Option.isSome_some,
          Bool.false_eq_true, Bool.false_or, Bool.true_or, Bool.or_self,
          if_false, if_true] <;>
        split_ifs <;> omega

/-! ### High-impact keyword detector
(_detect_high_impact_keywords of src/src/hardstop/alerts/alert_builder.py).

The regexes involved are embedded with these exact semantics:

* a pattern of the form B(K1|K2)B.*B(N1|...)B, where B is a word boundary
  and every alternative is a single word, matches exactly when some whole
  word equal to a Ki is followed (strictly later) by some whole word equal
  to an Nj; text is split into maximal runs of word characters to decide
  whole-word occurrences;
* the closure keyword alternative SHUT\s+DOWN matches the adjacent word
  pair SHUT, DOWN when the separator run between them is entirely
  whitespace;
* the three location-signal regexes are implemented as character-level
  scanners, one position at a time, with the same backtracking behaviour
  as re.search (which here is deterministic because every repeated class
  is disjoint from what follows it).
-/

/-- Python \s (ASCII): space, tab, newline, carriage return, vertical tab,
form feed. -/
def pyWhitespace (c : Char) : Bool :=
  c = ' ' || c = '\t' || c = '\n' || c = '\r' || c = '\x0b' || c = '\x0c'

/-- Word boundary test against the character following a match (none at
end of text). -/
def boundaryAfter (cs : List Char) : Bool :=
  match cs with
  | [] => true
  | c :: _ => ! isWordChar c

/-- Tokenizer: maximal runs of word characters, each paired with whether
the separator run since the previous token was entirely whitespace.
Called as tokenize true [] cs. -/
def tokenize : Bool → List Char → List Char → List (List Char × Bool)
  | gapWs, cur, [] => if cur.isEmpty then [] else [(cur.reverse, gapWs)]
  | gapWs, cur, c :: t =>
    if isWordChar c then tokenize gapWs (c :: cur) t
    else if cur.isEmpty then tokenize (gapWs && pyWhitespace c) [] t
    else (cur.reverse, gapWs) :: tokenize (pyWhitespace c) [] t

/-- Membership of a token in a word list. -/
def tokIn (t : List Char × Bool) (ws : List String) : Bool :=
  ws.any (fun s => t.1 == s.data)

/-- Some token of the list is a word of ws. -/
def anyWordIn (toks : List (List Char × Bool)) (ws : List String) : Bool :=
  toks.any (fun t => tokIn t ws)

/-- B(first...)B.*B(second...)B for single-word alternatives: a word of
the first list occurs strictly before a word of the second. -/
def keyThenNoun (first second : List String) :
    List (List Char × Bool) → Bool
  | [] => false
  | t :: rest => (tokIn t first && anyWordIn rest second)
      || keyThenNoun first second rest

/-- Closure keyword occurrence (CLOSURE|CLOSED|SHUTDOWN|SHUT\s+DOWN)
starting at the head of the token list; returns the tokens after the
occurrence. -/
def closureKeyHead : List (List Char × Bool) → Option (List (List Char × Bool))
  | [] => none
  | (w, _) :: rest =>
    if w == "CLOSURE".data || w == "CLOSED".data || w == "SHUTDOWN".data then
      some rest
    else if w == "SHUT".data then
      match rest with
      | (w2, ws2) :: rest2 =>
        if w2 == "DOWN".data && ws2 then some rest2 else none
      | [] => none
    else none

/-- Closure keyword occurrence anywhere in the token list. -/
def hasClosureKey : List (List Char × Bool) → Bool
  | [] => false
  | t :: rest => (closureKeyHead (t :: rest)).isSome || hasClosureKey rest

/-- Closure keyword then an operational noun strictly after it. -/
def closureThenNoun (nouns : List String) :
    List (List Char × Bool) → Bool
  | [] => false
  | t :: rest =>
    (match closureKeyHead (t :: rest) with
     | some after => anyWordIn after nouns
     | none => false) || closureThenNoun nouns rest

/-- Operational noun then a closure keyword strictly after it. -/
def nounThenClosure (nouns : List String) :
    List (List Char × Bool) → Bool
  | [] => false
  | t :: rest => (tokIn t nouns && hasClosureKey rest)
      || nounThenClosure nouns rest

/-- Operational nouns of the spill/closure/fire patterns. -/
def opNouns : List String :=
  ["PLANT", "FACILITY", "WAREHOUSE", "PORT", "TERMINAL", "REFINERY", "DC"]

/-- Operational nouns of the strike patterns. -/
def strikeNouns : List String :=
  opNouns ++ ["RAIL", "TRUCK", "CARRIER"]

/-- Generic left-to-right scan: the position-local matcher succeeds at
some position whose preceding character (if any) is not a word character. -/
def scanPos (tryAt : List Char → Bool) : Option Char → List Char → Bool
  | _, [] => false
  | prev, c :: t =>
    ((match prev with
      | none => true
      | some p => ! isWordChar p) && tryAt (c :: t))
      || scanPos tryAt (some c) t

/-- State part of the City, State regex: ([A-Z]{2}|[A-Z][a-z]+) followed
by a word boundary. -/
def stateAlt (cs : List Char) : Bool :=
  (match cs with
   | a :: b :: rest => a.isUpper && b.isUpper && boundaryAfter rest
   | _ => false)
  || (match cs with
      | a :: rest =>
        if a.isUpper then
          let s := rest.span (fun c => c.isLower)
          ! s.1.isEmpty && boundaryAfter s.2
        else false
      | [] => false)

/-- Position-local matcher of B([A-Z][a-z]+),\s*([A-Z]{2}|[A-Z][a-z]+)B
(the City, State signal, run on the original-case text). -/
def cityStateAt (cs : List Char) : Bool :=
  match cs with
  | c :: rest =>
    if c.isUpper then
      let s := rest.span (fun c2 => c2.isLower)
      if ! s.1.isEmpty then
        match s.2 with
        | ',' :: rest3 => stateAlt (rest3.dropWhile pyWhitespace)
        | _ => false
      else false
    else false
  | [] => false

/-- Literal match that consumes the literal and returns the rest. -/
def dropLit : List Char → List Char → Option (List Char)
  | [], cs => some cs
  | l :: lt, c :: ct => if c = l then dropLit lt ct else none
  | _ :: _, [] => none

/-- Position-local matcher of B(PLANT-|DC-|FACILITY-)\w+B (facility-id
signal, run on the uppercased text). -/
def facIdAt (cs : List Char) : Bool :=
  ["PLANT-", "DC-", "FACILITY-"].any (fun lit =>
    match dropLit lit.data cs with
    | some rest =>
      let s := rest.span isWordChar
      ! s.1.isEmpty && boundaryAfter s.2
    | none => false)

/-- Position-local matcher of the date regex (one or two digits, a
slash-or-dash separator, again, then two to four digits, word-bounded;
signal, run on the original-case text). -/
def dateAt (cs : List Char) : Bool :=
  let s1 := cs.span (·.isDigit)
  if 1 ≤ s1.1.length && s1.1.length ≤ 2 then
    match s1.2 with
    | a :: r2 =>
      if a = '/' || a = '-' then
        let s2 := r2.span (·.isDigit)
        if 1 ≤ s2.1.length && s2.1.length ≤ 2 then
          match s2.2 with
          | b :: r4 =>
            if b = '/' || b = '-' then
              let s3 := r4.span (·.isDigit)
              2 ≤ s3.1.length && s3.1.length ≤ 4 && boundaryAfter s3.2
            else false
          | [] => false
        else false
      else false
    | [] => false
  else false

/-- Location/time signal of the standalone-keyword fallback: City, State
in the original text, or a facility id starting PLANT- or DC- or
FACILITY- in the uppercased
text, or a date in the original text. -/
def hasLocationSignal (text : String) : Bool :=
  scanPos cityStateAt none text.data
    || scanPos facIdAt none (upList text.data)
    || scanPos dateAt none text.data

/-- The standalone keywords checked with the location-signal fallback. -/
def standaloneKeywords : List String :=
  ["SPILL", "STRIKE", "CLOSURE", "SHUTDOWN", "FIRE", "EXPLOSION"]

/-- _detect_high_impact_keywords of
src/src/hardstop/alerts/alert_builder.py: (has_high_impact,
matched_patterns). -/
def detect_high_impact_keywords (text : String) : Bool × List String :=
  let textU := upList text.data
  let toks := tokenize true [] textU
  let matched :=
    (if keyThenNoun ["SPILL", "LEAK"] opNouns toks then ["SPILL"] else [])
    ++ (if keyThenNoun opNouns ["SPILL", "LEAK"] toks then ["SPILL"] else [])
    ++ (if keyThenNoun ["STRIKE", "WALKOUT"] strikeNouns toks then ["STRIKE"] else [])
    ++ (if keyThenNoun strikeNouns ["STRIKE", "WALKOUT"] toks then ["STRIKE"] else [])
    ++ (if closureThenNoun opNouns toks then ["CLOSURE"] else [])
    ++ (if nounThenClosure opNouns toks then ["CLOSURE"] else [])
    ++ (if keyThenNoun ["FIRE", "EXPLOSION"] opNouns toks then ["FIRE"] else [])
    ++ (if keyThenNoun opNouns ["FIRE", "EXPLOSION"] toks then ["FIRE"] else [])
  let signal := hasLocationSignal text
  let matched2 := standaloneKeywords.foldl
    (fun acc k =>
      if containsSub textU k.data && signal && ! acc.contains k then acc ++ [k]
      else acc)
    matched
  (! matched2.isEmpty, matched2)

/-! ### Quality validator and classification policy
(src/src/hardstop/alerts/alert_builder.py) -/

/-- Alert-quality configuration (spec section 6; the recommended default
is 0.50 / 0.70 / 0.50 / true). -/
structure QualityConfig where
  minConfidenceClass1 : ℚ
  minConfidenceClass2 : ℚ
  minConfidenceAmbiguous : ℚ
  allowQualityOverrideFloor : Bool

/-- _compute_max_allowed_classification of
src/src/hardstop/alerts/alert_builder.py, returning
(max_allowed_classification, high_impact_factors).  The human-readable
reasoning strings the source also returns decide nothing and are elided;
two pairs of source branches that differ only in the reasoning they record
(the two no-facility branches, and the two low-confidence branches of
strategy 3) are collapsed accordingly, and the compensating-evidence
labels are kept without their formatted keyword list. -/
def compute_max_allowed_classification (event : Event) (impactScore : Int)
    (breakdown : List String) (trustTier : Int) (cfg : QualityConfig) :
    Int × Nat :=
  let facilityConf : ℚ := event.linkConfFacility.getD 0
  let laneConf : ℚ := event.linkConfLanes.getD 0
  let shipmentConf : ℚ := event.linkConfShipments.getD 0
  let facilityProvenance := event.linkProvFacility.getD ""
  let hasFacilities := ! event.facilities.isEmpty
  let hasLanes := ! event.lanes.isEmpty
  let hasShipments := ! event.shipments.isEmpty
  let det := detect_high_impact_keywords (event.title ++ " " ++ event.rawText)
  let hasHighImpactKeyword := det.1
  let highImpactFactors : Nat :=
    (if breakdown.any (fun b => containsSub b.data "criticality_score >= 7".data)
      then 1 else 0)
    + (if breakdown.any (fun b => containsSub b.data "volume_score >= 7".data)
      then 1 else 0)
    + (if breakdown.any (fun b => containsSub b.data "Priority shipments".data)
      then 1 else 0)
    + (if hasHighImpactKeyword then 1 else 0)
  if ! hasFacilities then (0, highImpactFactors)
  else if facilityProvenance = "CITY_STATE_AMBIGUOUS" then
    if facilityConf < cfg.minConfidenceAmbiguous then (0, highImpactFactors)
    else
      let compensating : List String :=
        (if trustTier = 3 then ["high-trust source"] else [])
        ++ (if hasHighImpactKeyword then ["high-impact keyword"] else [])
        ++ (if hasLanes && decide (mkRat 7 10 ≤ laneConf)
            then ["strong lane links"] else [])
        ++ (if hasShipments && decide (mkRat 6 10 ≤ shipmentConf)
            then ["strong shipment links"] else [])
        ++ (if 1 < event.facilities.length
            then ["multiple facility references"] else [])
        ++ (if 6 ≤ impactScore then ["very high impact score"] else [])
      if 3 ≤ compensating.length then (1, highImpactFactors)
      else if 2 ≤ compensating.length then (1, highImpactFactors)
      else (0, highImpactFactors)
  else if cfg.minConfidenceClass2 ≤ facilityConf then
    if 2 ≤ highImpactFactors then (2, highImpactFactors)
    else if highImpactFactors = 1 && decide (5 ≤ impactScore) then
      (2, highImpactFactors)
    else (1, highImpactFactors)
  else if cfg.minConfidenceClass1 ≤ facilityConf then
    if decide (trustTier = 3) && hasHighImpactKeyword then (1, highImpactFactors)
    else if 2 ≤ trustTier then (1, highImpactFactors)
    else (0, highImpactFactors)
  else (0, highImpactFactors)

/-- Classification composition of build_basic_alert
(src/src/hardstop/alerts/alert_builder.py, lines 380-441): maps the impact
score to a score classification, caps it with the quality maximum, then
applies the source-policy floor.  The two policy branches of the source
(allow_quality_override_floor true/false) execute the same
max(classification, floor) and differ only in the reasoning they record;
both are kept to mirror the source.  Returns (final classification,
max_allowed_classification). -/
def compose_classification (event : Event) (impactScore : Int)
    (breakdown : List String) (cfg : QualityConfig) : Int × Int :=
  let classification := map_score_to_classification impactScore
  let q := compute_max_allowed_classification event impactScore breakdown
    event.trustTier cfg
  let maxAllowedClass := q.1
  let capped := min classification maxAllowedClass
  let final :=
    if cfg.allowQualityOverrideFloor then max capped event.classificationFloor
    else max capped event.classificationFloor
  (final, maxAllowedClass)

/-! ### Scope merging for correlated alerts
(_merge_scope and _dedupe_preserve_order of
src/src/hardstop/alerts/alert_builder.py).

JSON values are modelled with arrays restricted to atomic elements: the
scope payloads the pipeline stores hold lists of id strings (possibly with
nulls), and Python's _dedupe_preserve_order would raise TypeError on
unhashable (nested) elements anyway.  A nested object value is kept opaque
(vobj): _merge_scope never looks inside one — isinstance(x, list) is false
for it and int(x) raises. -/

/-- Atomic JSON value (an element of a scope array). -/
inductive JAtom where
  | anull
  | abool (b : Bool)
  | aint (n : Int)
  | astr (s : String)
deriving DecidableEq

/-- JSON value stored under a key of a scope object. -/
inductive JVal where
  | vnull
  | vbool (b : Bool)
  | vint (n : Int)
  | vstr (s : String)
  | varr (xs : List JAtom)
  | vobj
deriving DecidableEq

/-- Python truthiness of a JSON value.  The opaque nested object stands
for a nonempty dict (an empty one would be falsy, but _merge_scope treats
both identically except through int(), which raises on every dict). -/
def truthy (v : JVal) : Bool :=
  match v with
  | .vnull => false
  | .vbool b => b
  | .vint n => n != 0
  | .vstr s => !s.isEmpty
  | .varr xs => !xs.isEmpty
  | .vobj => true

/-- dict.get(key, default) on a parsed JSON object. -/
def jget (fields : List (String × JVal)) (k : String) (dflt : JVal) : JVal :=
  match fields.find? (fun p => p.1 = k) with
  | some p => p.2
  | none => dflt

/-- isinstance(x, list) guard of _merge_scope: a non-list value is
replaced by the empty list. -/
def asList (v : JVal) : List JAtom :=
  match v with
  | .varr xs => xs
  | _ => []

/-- Worker of _dedupe_preserve_order: drop elements already seen and
nulls, keeping first occurrences in order. -/
def dedupeGo (seen : List JAtom) : List JAtom → List JAtom
  | [] => []
  | x :: t =>
    if seen.contains x || decide (x = JAtom.anull) then dedupeGo seen t
    else x :: dedupeGo (x :: seen) t

/-- _dedupe_preserve_order of src/src/hardstop/alerts/alert_builder.py. -/
def dedupe_preserve_order (xs : List JAtom) : List JAtom :=
  dedupeGo [] xs

/-- Python int() applied to a JSON value: ints pass through, booleans
become 0/1, strings are parsed (optional surrounding whitespace and sign;
digit-group underscores are not modelled), everything else raises. -/
def pyParseInt (s : String) : Option Int :=
  let cs := ((s.data.dropWhile pyWhitespace).reverse.dropWhile pyWhitespace).reverse
  match cs with
  | '-' :: rest => (digitsToNat rest).map (fun n => -(n : Int))
  | '+' :: rest => (digitsToNat rest).map (fun n => (n : Int))
  | _ => (digitsToNat cs).map (fun n => (n : Int))

/-- Python int() on a JSON value, as the Except-carried exception model. -/
def pyIntE (v : JVal) : Except String Int :=
  match v with
  | .vint n => .ok n
  | .vbool b => .ok (if b then 1 else 0)
  | .vstr s =>
    match pyParseInt s with
    | some n => .ok n
    | none => .error "ValueError"
  | .vnull => .error "TypeError"
  | .varr _ => .error "TypeError"
  | .vobj => .error "TypeError"

/-- int(v or 0): falsy values are replaced by 0 before conversion. -/
def stlValue (v : JVal) : Except String Int :=
  pyIntE (if truthy v then v else .vint 0)

/-- Outcome of `existing_scope_json` and its json.loads in _merge_scope:
the stored text is falsy (None or empty), or parsing raised
(JSONDecodeError, or TypeError for a non-string), or it parsed to a
non-object (falsy ones are replaced by the empty object by `or`; truthy
ones make the subsequent .get raise AttributeError), or it parsed to an
object with the given fields. -/
inductive StoredScopeJson where
  | absent
  | parseFailed
  | parsedNonObj (isTruthy : Bool)
  | parsedObj (fields : List (String × JVal))

/-- Merge body of _merge_scope once existing_scope is an object (an empty
object and the `or {}` replacement of a falsy parse behave identically).
The two int() conversions are evaluated in source order; the first
exception propagates. -/
def mergeFields (ef nf : List (String × JVal)) :
    Except String (List (String × JVal)) :=
  let mf := dedupe_preserve_order
    (asList (jget ef "facilities" (.varr [])) ++ asList (jget nf "facilities" (.varr [])))
  let ml := dedupe_preserve_order
    (asList (jget ef "lanes" (.varr [])) ++ asList (jget nf "lanes" (.varr [])))
  let ms := dedupe_preserve_order
    (asList (jget ef "shipments" (.varr [])) ++ asList (jget nf "shipments" (.varr [])))
  match stlValue (jget ef "shipments_total_linked" (.vint (ms.length : Int))),
      stlValue (jget nf "shipments_total_linked"
        (.vint ((asList (jget nf "shipments" (.varr []))).length : Int))) with
  | .error e, _ => .error e
  | .ok _, .error e => .error e
  | .ok a, .ok b =>
    .ok [("facilities", .varr mf), ("lanes", .varr ml), ("shipments", .varr ms),
      ("shipments_total_linked", .vint (max a b)),
      ("shipments_truncated", .vbool (truthy (jget ef "shipments_truncated" .vnull)
        || truthy (jget nf "shipments_truncated" .vnull)))]

/-- _merge_scope of src/src/hardstop/alerts/alert_builder.py. -/
def merge_scope (existing : StoredScopeJson)
    (newScope : List (String × JVal)) :
    Except String (List (String × JVal)) :=
  match existing with
  | .absent => .ok newScope
  | .parseFailed => mergeFields [] newScope
  | .parsedNonObj t =>
    if t then .error "AttributeError" else mergeFields [] newScope
  | .parsedObj fields => mergeFields fields newScope

/-! ### Lane resolution
(src/src/sentinel/parsing/network_linker.py, lines 84-94, and
src/src/hardstop/parsing/entity_extractor.py, lines 178-184). -/

/-- Lane step of link_event_to_network
(src/src/sentinel/parsing/network_linker.py): executed when the event has
matched facilities; lanes whose origin or destination is among the matched
facility ids, unioned into the event's lane list as sorted(set(...)). -/
def sentinel_resolve_lanes (priorLanes : List String) (facIds : List String)
    (db : Inventory) : List String :=
  let laneIds := (db.lanes.filter (fun l =>
    facIds.contains l.originFacilityId || facIds.contains l.destFacilityId)).map
    (fun l => l.laneId)
  if laneIds.isEmpty then priorLanes else sortedSet (priorLanes ++ laneIds)

/-- Lane step of link_to_network
(src/src/hardstop/parsing/entity_extractor.py, lines 178-184): lanes whose
origin is among the matched facility ids, in table order, no
deduplication or sorting; the empty list when no facility matched. -/
def hardstop_resolve_lanes (facIds : List String) (db : Inventory) :
    List String :=
  if facIds.isEmpty then []
  else (db.lanes.filter (fun l => facIds.contains l.originFacilityId)).map
    (fun l => l.laneId)

/-- Lane resolution as the claim words it (spec section 4.3): exactly the
lanes whose origin facility id or destination facility id equals one of
the matched facility ids, deduplicated and sorted.  Stated from the spec
for comparison against the two source embeddings above. -/
def spec_resolved_lanes (facIds : List String) (db : Inventory) :
    List String :=
  sortedSet ((db.lanes.filter (fun l =>
    facIds.contains l.originFacilityId || facIds.contains l.destFacilityId)).map
    (fun l => l.laneId))

/-! ### Raw-item repository
(src/src/sentinel/database/raw_item_repo.py).

The payload object of a candidate is modelled by its canonical-JSON
encoding, an opaque string: the repository code never looks inside it.
The SHA-256 content hash is modelled by the hashed projection itself
(a collision-free abstraction: only equality of hashes is ever used). -/

/-- RawItemCandidate (spec section 6): optional feed-assigned fields plus
the payload object. -/
structure Candidate where
  canonicalId : Option String
  title : Option String
  url : Option String
  publishedAtUtc : Option String
  payload : String
deriving DecidableEq

/-- Content hash: stands for the SHA-256 of the canonical-JSON encoding of
the stable projection {canonical_id, title, url, published_at_utc,
payload} of a candidate (spec section 4.1); modelled as the projection
itself, with hash equality as structural equality. -/
structure ContentHash where
  canonicalId : Option String
  title : Option String
  url : Option String
  publishedAtUtc : Option String
  payload : String
deriving DecidableEq

/-- RawItem row of the raw_items table. -/
structure RawItem where
  rawId : String
  sourceId : String
  tier : String
  fetchedAtUtc : String
  publishedAtUtc : Option String
  canonicalId : Option String
  url : Option String
  title : Option String
  rawPayloadJson : String
  contentHash : ContentHash
  status : String
  error : Option String
  trustTier : Option Int
deriving DecidableEq

/-- Truthiness of an optional string (None and the empty string are
falsy). -/
def truthyOptStr (o : Option String) : Bool :=
  match o with
  | some s => !s.isEmpty
  | none => false

/-- Modelled from the spec: get_dedupe_key of
sentinel/retrieval/dedupe.py (imported by
src/src/sentinel/database/raw_item_repo.py but not among the repository
files).  Per spec section 4.1 it yields the candidate's canonical id and
the SHA-256 content hash over the canonical-JSON projection {canonical_id,
title, url, published_at_utc, payload}; the hash is modelled as that
projection.  Since the hash is always available here, the dead
`if not content_hash:` recomputation fallback of save_raw_item is elided. -/
def get_dedupe_key (_sourceId : String) (c : Candidate) :
    Option String × ContentHash :=
  (c.canonicalId, ⟨c.canonicalId, c.title, c.url, c.publishedAtUtc, c.payload⟩)

/-- Replace the first row satisfying p by f of it (models mutating the
row object .first() returned). -/
def replaceFirst (p : RawItem → Bool) (f : RawItem → RawItem) :
    List RawItem → List RawItem
  | [] => []
  | r :: t => if p r then f r :: t else r :: replaceFirst p f t

/-- Row match by (source_id, canonical_id). -/
def matchByCanonical (sourceId : String) (canId : Option String)
    (r : RawItem) : Bool :=
  decide (r.sourceId = sourceId) && decide (r.canonicalId = canId)

/-- Row match by (source_id, content_hash). -/
def matchByHash (sourceId : String) (h : ContentHash) (r : RawItem) : Bool :=
  decide (r.sourceId = sourceId) && decide (r.contentHash = h)

/-- save_raw_item of src/src/sentinel/database/raw_item_repo.py.  The
store is the raw_items table in insertion order; .first() is the first
matching row.  The fresh raw id the code mints from the wall-clock date
and the id generator is passed in as freshRawId; the fetched_at_utc
default (wall clock when None) is resolved by the caller.  Returns the
updated store and the returned row. -/
def save_raw_item (store : List RawItem) (sourceId tier : String)
    (candidate : Candidate) (fetchedAtUtc : String) (trustTier : Option Int)
    (freshRawId : String) : List RawItem × RawItem :=
  let key := get_dedupe_key sourceId candidate
  let canId := key.1
  let contentHash := key.2
  let byCanonical :=
    if truthyOptStr canId then
      store.find? (matchByCanonical sourceId canId)
    else none
  let existing :=
    match byCanonical with
    | some r => some r
    | none => store.find? (matchByHash sourceId contentHash)
  match byCanonical, existing with
  | some r, _ =>
    (replaceFirst (matchByCanonical sourceId canId)
      (fun row => { row with fetchedAtUtc := fetchedAtUtc }) store,
     { r with fetchedAtUtc := fetchedAtUtc })
  | none, some r =>
    (replaceFirst (matchByHash sourceId contentHash)
      (fun row => { row with fetchedAtUtc := fetchedAtUtc }) store,
     { r with fetchedAtUtc := fetchedAtUtc })
  | none, none =>
    let row : RawItem :=
      { rawId := freshRawId
        sourceId := sourceId
        tier := tier
        fetchedAtUtc := fetchedAtUtc
        publishedAtUtc := candidate.publishedAtUtc
        canonicalId := canId
        url := candidate.url
        title := candidate.title
        rawPayloadJson := candidate.payload
        contentHash := contentHash
        status := "NEW"
        error := none
        trustTier := trustTier }
    (store ++ [row], row)

/-- mark_raw_item_status of src/src/sentinel/database/raw_item_repo.py:
look the row up by raw id; when absent, log a warning and return with the
store untouched; otherwise set status unconditionally and set error only
when the argument is truthy. -/
def mark_raw_item_status (store : List RawItem) (rawId status : String)
    (error : Option String) : List RawItem :=
  match store.find? (fun r => decide (r.rawId = rawId)) with
  | none => store
  | some _ =>
    replaceFirst (fun r => decide (r.rawId = rawId))
      (fun r =>
        { r with
          status := status
          error := if truthyOptStr error then error else r.error })
      store

/-! ### Helper lemmas -/

theorem mem_dedupeGo (x : JAtom) (xs : List JAtom) :
    ∀ seen : List JAtom,
      (x ∈ dedupeGo seen xs ↔ x ∈ xs ∧ x ∉ seen ∧ x ≠ JAtom.anull) := by
  induction xs with
  | nil => intro seen; simp [dedupeGo]
  | cons y t ih =>
    intro seen
    simp only [dedupeGo]
    by_cases hc : (seen.contains y || decide (y = JAtom.anull)) = true
    · rw [if_pos hc]
      rw [ih seen]
      simp only [List.elem_iff, Bool.or_eq_true, decide_eq_true_eq] at hc
      simp only [List.mem_cons]
      constructor
      · rintro ⟨hxt, hxs, hxn⟩
        exact ⟨Or.inr hxt, hxs, hxn⟩
      · rintro ⟨hxy | hxt, hxs, hxn⟩
        · subst hxy
          rcases hc with hin | hnull
          · exact absurd hin hxs
          · exact absurd hnull hxn
        · exact ⟨hxt, hxs, hxn⟩
    · rw [if_neg hc]
      simp only [List.elem_iff, Bool.or_eq_true, decide_eq_true_eq,
        not_or] at hc
      obtain ⟨hys, hyn⟩ := hc
      simp only [List.mem_cons, ih (y :: seen)]
      by_cases hxy : x = y
      · subst hxy
        simp [hys, hyn]
      · simp only [hxy, false_or]

theorem nodup_dedupeGo (xs : List JAtom) :
    ∀ seen : List JAtom, (dedupeGo seen xs).Nodup := by
  induction xs with
  | nil => intro seen; simp [dedupeGo]
  | cons y t ih =>
    intro seen
    simp only [dedupeGo]
    by_cases hc : (seen.contains y || decide (y = JAtom.anull)) = true
    · rw [if_pos hc]; exact ih seen
    · rw [if_neg hc]
      refine List.Nodup.cons ?_ (ih (y :: seen))
      intro hmem
      rw [mem_dedupeGo] at hmem
      exact hmem.2.1 (List.mem_cons_self y seen)

theorem mem_dedupe_preserve_order (x : JAtom) (xs : List JAtom) :
    x ∈ dedupe_preserve_order xs ↔ x ∈ xs ∧ x ≠ JAtom.anull := by
  unfold dedupe_preserve_order
  rw [mem_dedupeGo]
  simp

theorem find?_append_of_all_false {α : Type} {p : α → Bool} {l1 : List α}
    (l2 : List α) (h : ∀ r ∈ l1, p r = false) :
    (l1 ++ l2).find? p = l2.find? p := by
  induction l1 with
  | nil => rfl
  | cons r t ih =>
    simp only [List.cons_append, List.find?]
    rw [h r (List.mem_cons_self r t)]
    exact ih (fun r hr => h r (List.mem_cons_of_mem _ hr))

theorem find?_eq_none_of_all_false {α : Type} {p : α → Bool} {l : List α}
    (h : ∀ r ∈ l, p r = false) : l.find? p = none := by
  rw [List.find?_eq_none]
  intro x hx
  simp [h x hx]

theorem replaceFirst_append_of_all_false {p : RawItem → Bool}
    {f : RawItem → RawItem} {l1 : List RawItem} (l2 : List RawItem)
    (h : ∀ r ∈ l1, p r = false) :
    replaceFirst p f (l1 ++ l2) = l1 ++ replaceFirst p f l2 := by
  induction l1 with
  | nil => rfl
  | cons r t ih =>
    have hr := h r (List.mem_cons_self r t)
    simp only [List.cons_append, replaceFirst, hr, Bool.false_eq_true, if_false]
    exact congrArg (fun l => r :: l)
      (ih (fun r2 hr2 => h r2 (List.mem_cons_of_mem _ hr2)))

/-! ### Concrete inputs used by the claim theorems -/

/-- The recommended alert-quality configuration (spec section 6):
0.50 / 0.70 / 0.50, Policy B. -/
def defaultQualityConfig : QualityConfig :=
  ⟨mkRat 1 2, mkRat 7 10, mkRat 1 2, true⟩

/-- Event with no matched facilities whose source sets
classification_floor = 1. -/
def floorEvent : Event :=
  { facilities := [], lanes := [], shipments := []
    eventType := "GENERAL", title := "Quarterly results", rawText := ""
    linkConfFacility := none, linkConfLanes := none, linkConfShipments := none
    linkProvFacility := none, trustTier := 2, weightingBias := 0
    classificationFloor := 1 }

/-- Inventory with a single priority shipment whose ETA is 2025-01-02. -/
def clockInventory : Inventory :=
  { facilities := [], lanes := []
    shipments := [⟨"SHP-1", "LANE-1", none, some "2025-01-02",
      some "IN_TRANSIT", some 1⟩] }

/-- Event linked to that single shipment. -/
def clockEvent : Event :=
  { facilities := [], lanes := [], shipments := ["SHP-1"]
    eventType := "GENERAL", title := "", rawText := ""
    linkConfFacility := none, linkConfLanes := none, linkConfShipments := none
    linkProvFacility := none, trustTier := 2, weightingBias := 0
    classificationFloor := 0 }

/-- The spec scenario S2 event: title "Fire sale at warehouse", no
facilities. -/
def fireSaleEvent : Event :=
  { facilities := [], lanes := [], shipments := []
    eventType := "", title := "Fire sale at warehouse", rawText := ""
    linkConfFacility := none, linkConfLanes := none, linkConfShipments := none
    linkProvFacility := none, trustTier := 2, weightingBias := 0
    classificationFloor := 0 }

/-- Empty inventory. -/
def emptyInventory : Inventory := ⟨[], [], []⟩

/-- Inventory whose only lane reaches facility F-1 as its destination
(origin F-2). -/
def destLaneInventory : Inventory :=
  { facilities := [⟨"F-1", some 5⟩]
    lanes := [⟨"LANE-9", "F-2", "F-1", some 3⟩]
    shipments := [] }

/-! ### Claim theorems -/

/-- C1.  The claim says that under Policy B the final classification never
exceeds max_allowed_class.  The code violates it: build_basic_alert applies
classification = min(score_class, cap) and then
classification = max(classification, classification_floor) with no re-cap,
so a source floor of 1 lifts a quality-capped 0 above the cap.  At the
concrete event with no matched facilities (cap 0, score class 0) and
classification_floor = 1, the final classification is 1 > 0 = cap. -/
theorem policyB_floor_exceeds_quality_cap :
    compose_classification floorEvent 0 [] defaultQualityConfig = (1, 0) ∧
      ¬ (compose_classification floorEvent 0 [] defaultQualityConfig).1 ≤
        (compose_classification floorEvent 0 [] defaultQualityConfig).2 := by
  constructor
  · decide
  · decide

/-- C2.  The claim says rule R5 reads only the injected clock.  The
sentinel calculate_network_impact_score instead calls
datetime.now().date(): with the ambient wall date made explicit, the same
event and inventory score 2 when the wall date is 2025-01-01 (the priority
shipment's ETA 2025-01-02 is within 48 hours) but 1 when the wall date is
2025-03-01 — the result depends on the real current time. -/
theorem sentinel_scorer_depends_on_wall_clock :
    (calculate_network_impact_score clockEvent clockInventory
      (civilToDay 2025 1 1)).1 = 2 ∧
    (calculate_network_impact_score clockEvent clockInventory
      (civilToDay 2025 3 1)).1 = 1 := by
  constructor
  · decide
  · decide

/-- C3 counterexample.  Lane resolution in hardstop's link_to_network
collects only lanes whose origin facility matches: with matched facility
F-1 and a lane LANE-9 from F-2 to F-1, it returns no lanes, while the
claimed origin-or-destination resolution returns LANE-9 (which sentinel's
link_event_to_network does produce). -/
theorem hardstop_lanes_miss_destination :
    hardstop_resolve_lanes ["F-1"] destLaneInventory = [] ∧
    spec_resolved_lanes ["F-1"] destLaneInventory = ["LANE-9"] ∧
    sentinel_resolve_lanes [] ["F-1"] destLaneInventory = ["LANE-9"] := by
  refine ⟨?_, ?_, ?_⟩ <;> decide

/-- Bridge from Bool contains to membership. -/
theorem contains_iff_mem (l : List String) (a : String) :
    l.contains a = true ↔ a ∈ l :=
  List.elem_iff

/-- C3 amended.  For every matched facility set: sentinel's
link_event_to_network (starting from an event without pre-existing lanes)
collects exactly the lanes whose origin or destination is a matched
facility id, deduplicated and sorted; hardstop's link_to_network collects
exactly the lanes whose origin is a matched facility id (destination-only
lanes are dropped). -/
theorem lane_resolution_amended (facIds : List String) (db : Inventory) :
    sentinel_resolve_lanes [] facIds db = spec_resolved_lanes facIds db ∧
    (∀ lid, lid ∈ spec_resolved_lanes facIds db ↔
      ∃ l ∈ db.lanes, l.laneId = lid ∧
        (l.originFacilityId ∈ facIds ∨ l.destFacilityId ∈ facIds)) ∧
    (spec_resolved_lanes facIds db).Nodup ∧
    List.Sorted pyStrLe (spec_resolved_lanes facIds db) ∧
    (∀ lid, lid ∈ hardstop_resolve_lanes facIds db ↔
      ∃ l ∈ db.lanes, l.laneId = lid ∧ l.originFacilityId ∈ facIds) := by
  refine ⟨?_, ?_, ?_, ?_, ?_⟩
  · unfold sentinel_resolve_lanes spec_resolved_lanes
    by_cases h : ((db.lanes.filter (fun l =>
        facIds.contains l.originFacilityId || facIds.contains l.destFacilityId)).map
        (fun l => l.laneId)).isEmpty = true
    · rw [if_pos h]
      rw [List.isEmpty_iff] at h
      rw [h]
      rfl
    · rw [if_neg h]
      rw [List.nil_append]
  · intro lid
    unfold spec_resolved_lanes sortedSet
    rw [(List.perm_insertionSort pyStrLe _).mem_iff, List.mem_dedup,
      List.mem_map]
    constructor
    · rintro ⟨l, hl, rfl⟩
      rw [List.mem_filter] at hl
      refine ⟨l, hl.1, rfl, ?_⟩
      have := hl.2
      rw [Bool.or_eq_true, contains_iff_mem, contains_iff_mem] at this
      exact this
    · rintro ⟨l, hl, rfl, hor⟩
      refine ⟨l, ?_, rfl⟩
      rw [List.mem_filter]
      refine ⟨hl, ?_⟩
      rw [Bool.or_eq_true, contains_iff_mem, contains_iff_mem]
      exact hor
  · unfold spec_resolved_lanes sortedSet
    exact ((List.perm_insertionSort pyStrLe _).nodup_iff).mpr (List.nodup_dedup _)
  · unfold spec_resolved_lanes sortedSet
    exact List.sorted_insertionSort pyStrLe _
  · intro lid
    unfold hardstop_resolve_lanes
    by_cases h : facIds.isEmpty = true
    · rw [if_pos h]
      rw [List.isEmpty_iff] at h
      subst h
      simp
    · rw [if_neg h]
      rw [List.mem_map]
      constructor
      · rintro ⟨l, hl, rfl⟩
        rw [List.mem_filter] at hl
        have := hl.2
        rw [contains_iff_mem] at this
        exact ⟨l, hl.1, rfl, this⟩
      · rintro ⟨l, hl, rfl, ho⟩
        refine ⟨l, ?_, rfl⟩
        rw [List.mem_filter]
        exact ⟨hl, by rw [contains_iff_mem]; exact ho⟩

/-- C4.  The claim (with the spec's S2 scenario and the repository's own
test test_keyword_detection_avoids_false_positives) expects no high-impact
keyword match for the title "Fire sale at warehouse".  The detector's
pattern FIRE-then-operational-noun matches it, because WAREHOUSE follows
FIRE in the text, so it reports (True, [FIRE]).  The rest of the claim
holds: with no facilities the quality cap is 0 and the final
classification is 0 (the impact scorer finds no factors, so the score
class is 0 as well). -/
theorem fire_sale_detected_but_class_zero :
    detect_high_impact_keywords "Fire sale at warehouse" = (true, ["FIRE"]) ∧
    hardstop_calculate_network_impact_score fireSaleEvent emptyInventory 2 0 0
      = (0, ["No impact factors detected"]) ∧
    compose_classification fireSaleEvent 0 ["No impact factors detected"]
      defaultQualityConfig = (0, 0) := by
  refine ⟨?_, ?_, ?_⟩ <;> decide

/-- C8.  For every event, inventory, trust tier, weighting bias and
injected clock, the modelled hardstop scorer computes the rule sum first,
then adds weighting_bias plus tier_bonus(trust_tier), and clamps the
result to [0, 10]; and tier_bonus maps 3 to +1, 2 to 0, 1 to -1. -/
theorem hardstop_score_rule_sum_then_bias_then_clamp (ev : Event)
    (db : Inventory) (trustTier weightingBias now : Int) :
    (hardstop_calculate_network_impact_score ev db trustTier weightingBias
      now).1
      = max 0 (min 10 (ruleSum ev db now + weightingBias
          + tier_bonus trustTier)) ∧
    tier_bonus 3 = 1 ∧ tier_bonus 2 = 0 ∧ tier_bonus 1 = -1 := by
  refine ⟨?_, by decide, by decide, by decide⟩
  show min 10 (max 0 ((impact_rule_score ev db now).1 + weightingBias
    + tier_bonus trustTier)) = _
  rw [impact_rule_score_fst]
  omega

/-- jget through a successful find?. -/
theorem jget_eq_of_find? {f : List (String × JVal)} {k : String}
    {p : String × JVal} (h : f.find? (fun q => q.1 = k) = some p)
    (d : JVal) : jget f k d = p.2 := by
  unfold jget
  rw [h]

/-- int(v or 0) on an integer JSON value is the integer itself. -/
theorem stlValue_vint (a : Int) : stlValue (.vint a) = .ok a := by
  unfold stlValue truthy pyIntE
  by_cases h : a = 0
  · subst h; simp
  · simp [h, bne]

/-- C5.  When the stored scope JSON parses to an object carrying an
integer shipments_total_linked (and so does the incoming scope), the merge
produces, for each of facilities/lanes/shipments, the
union-preserving-order of existing-then-new with first occurrence winning
and nulls dropped; the merged list is duplicate-free and contains every
non-null entry of both sides (scope monotonicity);
shipments_total_linked is the maximum of the two stored counts and
shipments_truncated is their truthiness-OR. -/
theorem merge_scope_union_and_monotone
    (ef nf : List (String × JVal)) (a b : Int) (m : List (String × JVal))
    (ha : ef.find? (fun q => q.1 = "shipments_total_linked")
      = some ("shipments_total_linked", JVal.vint a))
    (hb : nf.find? (fun q => q.1 = "shipments_total_linked")
      = some ("shipments_total_linked", JVal.vint b))
    (hm : merge_scope (.parsedObj ef) nf = .ok m) :
    (∀ k ∈ (["facilities", "lanes", "shipments"] : List String),
      jget m k .vnull = .varr (dedupe_preserve_order
        (asList (jget ef k (.varr [])) ++ asList (jget nf k (.varr []))))) ∧
    (∀ k ∈ (["facilities", "lanes", "shipments"] : List String),
      ∀ x : JAtom, x ≠ JAtom.anull →
        x ∈ asList (jget ef k (.varr [])) ∨ x ∈ asList (jget nf k (.varr [])) →
        x ∈ asList (jget m k .vnull)) ∧
    (∀ k ∈ (["facilities", "lanes", "shipments"] : List String),
      (asList (jget m k .vnull)).Nodup) ∧
    jget m "shipments_total_linked" .vnull = .vint (max a b) ∧
    jget m "shipments_truncated" .vnull = .vbool
      (truthy (jget ef "shipments_truncated" .vnull)
        || truthy (jget nf "shipments_truncated" .vnull)) := by
  rw [show merge_scope (.parsedObj ef) nf = mergeFields ef nf from rfl] at hm
  unfold mergeFields at hm
  simp only [jget_eq_of_find? ha, jget_eq_of_find? hb, stlValue_vint,
    Except.ok.injEq] at hm
  subst hm
  refine ⟨?_, ?_, ?_, rfl, rfl⟩
  · intro k hk
    simp only [List.mem_cons, List.not_mem_nil, or_false] at hk
    rcases hk with rfl | rfl | rfl
    · rfl
    · rfl
    · rfl
  · intro k hk x hxn hmem
    simp only [List.mem_cons, List.not_mem_nil, or_false] at hk
    rcases hk with rfl | rfl | rfl
    · show x ∈ dedupe_preserve_order _
      rw [mem_dedupe_preserve_order, List.mem_append]
      exact ⟨hmem, hxn⟩
    · show x ∈ dedupe_preserve_order _
      rw [mem_dedupe_preserve_order, List.mem_append]
      exact ⟨hmem, hxn⟩
    · show x ∈ dedupe_preserve_order _
      rw [mem_dedupe_preserve_order, List.mem_append]
      exact ⟨hmem, hxn⟩
  · intro k hk
    simp only [List.mem_cons, List.not_mem_nil, or_false] at hk
    rcases hk with rfl | rfl | rfl
    · exact nodup_dedupeGo _ _
    · exact nodup_dedupeGo _ _
    · exact nodup_dedupeGo _ _

/-- Stored scope object used as the C5 witness input. -/
def storedScopeW : List (String × JVal) :=
  [("facilities", .varr [.astr "PLANT-01"]), ("lanes", .varr [.astr "LANE-001"]),
   ("shipments", .varr [.astr "SHP-1"]), ("shipments_total_linked", .vint 1),
   ("shipments_truncated", .vbool false)]

/-- Incoming scope payload used as the C5/C9 witness input (note the null
entry, dropped by the merge). -/
def incomingScopeW : List (String × JVal) :=
  [("facilities", .varr [.astr "PLANT-02", .astr "PLANT-01", .anull]),
   ("lanes", .varr [.astr "LANE-001"]),
   ("shipments", .varr [.astr "SHP-2", .astr "SHP-1"]),
   ("shipments_total_linked", .vint 3), ("shipments_truncated", .vbool true)]

/-- Merge of the two witness scopes. -/
def mergedScopeW : List (String × JVal) :=
  [("facilities", .varr [.astr "PLANT-01", .astr "PLANT-02"]),
   ("lanes", .varr [.astr "LANE-001"]),
   ("shipments", .varr [.astr "SHP-1", .astr "SHP-2"]),
   ("shipments_total_linked", .vint 3), ("shipments_truncated", .vbool true)]

/-- C5 witness: at the concrete stored and incoming scopes, the merged
shipments_total_linked is max(1, 3) = 3. -/
theorem merge_scope_union_witness :
    jget mergedScopeW "shipments_total_linked" .vnull = .vint (max 1 3) :=
  (merge_scope_union_and_monotone storedScopeW incomingScopeW 1 3
    mergedScopeW rfl rfl rfl).2.2.2.1

/-- dict.get on the empty object yields the default. -/
theorem jget_nil (k : String) (d : JVal) : jget [] k d = d := rfl

/-- isinstance guard applied to an actual array. -/
theorem asList_varr (xs : List JAtom) : asList (.varr xs) = xs := rfl

/-- C9.  When the stored scope JSON fails to parse (JSONDecodeError or
TypeError), _merge_scope silently treats the existing scope as the empty
object, so every facility/lane/shipment entry of the merge comes from the
incoming scope only — previously stored ids are dropped. -/
theorem merge_scope_parse_failure_drops_existing
    (nf m : List (String × JVal))
    (hm : merge_scope .parseFailed nf = .ok m) :
    merge_scope .parseFailed nf = merge_scope (.parsedObj []) nf ∧
    (∀ k ∈ (["facilities", "lanes", "shipments"] : List String),
      ∀ x : JAtom, x ∈ asList (jget m k .vnull) →
        x ∈ asList (jget nf k (.varr []))) := by
  refine ⟨rfl, ?_⟩
  rw [show merge_scope .parseFailed nf = mergeFields [] nf from rfl] at hm
  unfold mergeFields at hm
  rcases hx : stlValue (jget nf "shipments_total_linked"
      (.vint ((asList (jget nf "shipments" (.varr []))).length : Int)))
    with e | bv
  · simp only [jget_nil, asList_varr, List.nil_append, stlValue_vint, hx] at hm
    exact absurd hm (by simp)
  · simp only [jget_nil, asList_varr, List.nil_append, stlValue_vint, hx,
      Except.ok.injEq] at hm
    subst hm
    intro k hk x hmem
    simp only [List.mem_cons, List.not_mem_nil, or_false] at hk
    rcases hk with rfl | rfl | rfl
    · replace hmem : x ∈ dedupe_preserve_order
        (asList (jget nf "facilities" (.varr []))) := hmem
      exact ((mem_dedupe_preserve_order _ _).mp hmem).1
    · replace hmem : x ∈ dedupe_preserve_order
        (asList (jget nf "lanes" (.varr []))) := hmem
      exact ((mem_dedupe_preserve_order _ _).mp hmem).1
    · replace hmem : x ∈ dedupe_preserve_order
        (asList (jget nf "shipments" (.varr []))) := hmem
      exact ((mem_dedupe_preserve_order _ _).mp hmem).1

/-- Merge of the witness incoming scope against a stored scope that failed
to parse: only incoming entries survive. -/
def droppedMergeW : List (String × JVal) :=
  [("facilities", .varr [.astr "PLANT-02", .astr "PLANT-01"]),
   ("lanes", .varr [.astr "LANE-001"]),
   ("shipments", .varr [.astr "SHP-2", .astr "SHP-1"]),
   ("shipments_total_linked", .vint 3), ("shipments_truncated", .vbool true)]

/-- C9 witness: at the concrete incoming scope, an id of the parse-failed
merge result indeed comes from the incoming scope. -/
theorem merge_scope_parse_failure_witness :
    JAtom.astr "PLANT-02" ∈ asList (jget incomingScopeW "facilities" (.varr [])) :=
  (merge_scope_parse_failure_drops_existing incomingScopeW droppedMergeW
    rfl).2 "facilities" (by simp) (JAtom.astr "PLANT-02") (by decide)

/-- The row save_raw_item inserts when no existing row matches. -/
def freshRawRow (sourceId tier : String) (candidate : Candidate)
    (fetchedAtUtc : String) (trustTier : Option Int) (rawId : String) :
    RawItem :=
  { rawId := rawId
    sourceId := sourceId
    tier := tier
    fetchedAtUtc := fetchedAtUtc
    publishedAtUtc := candidate.publishedAtUtc
    canonicalId := candidate.canonicalId
    url := candidate.url
    title := candidate.title
    rawPayloadJson := candidate.payload
    contentHash := (get_dedupe_key sourceId candidate).2
    status := "NEW"
    error := none
    trustTier := trustTier }

/-- On a store holding no row of this source, save_raw_item inserts the
fresh row with status NEW. -/
theorem save_raw_item_inserts (store : List RawItem)
    (sourceId tier : String) (candidate : Candidate) (t1 : String)
    (trustTier : Option Int) (id1 : String)
    (hnew : ∀ r ∈ store, r.sourceId ≠ sourceId) :
    save_raw_item store sourceId tier candidate t1 trustTier id1
      = (store ++ [freshRawRow sourceId tier candidate t1 trustTier id1],
         freshRawRow sourceId tier candidate t1 trustTier id1) := by
  have hfc : store.find?
      (matchByCanonical sourceId (get_dedupe_key sourceId candidate).1)
      = none := by
    apply find?_eq_none_of_all_false
    intro r hr
    unfold matchByCanonical
    rw [decide_eq_false (hnew r hr)]
    rfl
  have hfh : store.find?
      (matchByHash sourceId (get_dedupe_key sourceId candidate).2) = none := by
    apply find?_eq_none_of_all_false
    intro r hr
    unfold matchByHash
    rw [decide_eq_false (hnew r hr)]
    rfl
  unfold save_raw_item
  by_cases ht : truthyOptStr (get_dedupe_key sourceId candidate).1 = true
  · simp only [ht, if_true, hfc, hfh]
    rfl
  · simp only [ht, if_false, hfh]
    rfl

/-- A second save of the same candidate finds the row the first save
inserted (by canonical id when it is truthy, else by content hash) and
updates only its fetch timestamp. -/
theorem save_raw_item_refetches (store : List RawItem)
    (sourceId tier tier2 : String) (candidate : Candidate) (t1 t2 : String)
    (trustTier trustTier2 : Option Int) (id1 id2 : String)
    (hnew : ∀ r ∈ store, r.sourceId ≠ sourceId) :
    save_raw_item
        (store ++ [freshRawRow sourceId tier candidate t1 trustTier id1])
        sourceId tier2 candidate t2 trustTier2 id2
      = (store ++ [{ freshRawRow sourceId tier candidate t1 trustTier id1 with
            fetchedAtUtc := t2 }],
         { freshRawRow sourceId tier candidate t1 trustTier id1 with
            fetchedAtUtc := t2 }) := by
  have hallc : ∀ r ∈ store,
      matchByCanonical sourceId (get_dedupe_key sourceId candidate).1 r
        = false := by
    intro r hr
    unfold matchByCanonical
    rw [decide_eq_false (hnew r hr)]
    rfl
  have hallh : ∀ r ∈ store,
      matchByHash sourceId (get_dedupe_key sourceId candidate).2 r = false := by
    intro r hr
    unfold matchByHash
    rw [decide_eq_false (hnew r hr)]
    rfl
  have hRc : matchByCanonical sourceId (get_dedupe_key sourceId candidate).1
      (freshRawRow sourceId tier candidate t1 trustTier id1) = true := by
    unfold matchByCanonical freshRawRow get_dedupe_key
    simp
  have hRh : matchByHash sourceId (get_dedupe_key sourceId candidate).2
      (freshRawRow sourceId tier candidate t1 trustTier id1) = true := by
    unfold matchByHash freshRawRow
    simp
  have hfindc : (store ++ [freshRawRow sourceId tier candidate t1 trustTier
      id1]).find? (matchByCanonical sourceId
        (get_dedupe_key sourceId candidate).1)
      = some (freshRawRow sourceId tier candidate t1 trustTier id1) := by
    rw [find?_append_of_all_false _ hallc]
    simp [List.find?, hRc]
  have hfindh : (store ++ [freshRawRow sourceId tier candidate t1 trustTier
      id1]).find? (matchByHash sourceId (get_dedupe_key sourceId candidate).2)
      = some (freshRawRow sourceId tier candidate t1 trustTier id1) := by
    rw [find?_append_of_all_false _ hallh]
    simp [List.find?, hRh]
  have hrepc : replaceFirst (matchByCanonical sourceId
      (get_dedupe_key sourceId candidate).1)
      (fun row => { row with fetchedAtUtc := t2 })
      (store ++ [freshRawRow sourceId tier candidate t1 trustTier id1])
      = store ++ [{ freshRawRow sourceId tier candidate t1 trustTier id1 with
          fetchedAtUtc := t2 }] := by
    rw [replaceFirst_append_of_all_false _ hallc]
    simp [replaceFirst, hRc]
  have hreph : replaceFirst (matchByHash sourceId
      (get_dedupe_key sourceId candidate).2)
      (fun row => { row with fetchedAtUtc := t2 })
      (store ++ [freshRawRow sourceId tier candidate t1 trustTier id1])
      = store ++ [{ freshRawRow sourceId tier candidate t1 trustTier id1 with
          fetchedAtUtc := t2 }] := by
    rw [replaceFirst_append_of_all_false _ hallh]
    simp [replaceFirst, hRh]
  unfold save_raw_item
  by_cases ht : truthyOptStr (get_dedupe_key sourceId candidate).1 = true
  · simp only [ht, if_true, hfindc]
    rw [hrepc]
  · simp only [ht, Bool.false_eq_true, if_false, hfindh]
    rw [hreph]

/-- C6.  With no prior row of the source in the store, saving a candidate
inserts one fresh row with status NEW and the supplied fresh raw id, and
saving the same candidate again matches that row (by canonical id when
truthy, else by content hash) and updates only its fetch timestamp: the
store still holds exactly one row for the candidate, identical except for
fetched_at_utc. -/
theorem save_raw_item_dedupe_idempotent (store : List RawItem)
    (sourceId tier : String) (candidate : Candidate) (t1 t2 : String)
    (trustTier : Option Int) (id1 id2 : String)
    (hnew : ∀ r ∈ store, r.sourceId ≠ sourceId) :
    (save_raw_item store sourceId tier candidate t1 trustTier id1).2.status
      = "NEW" ∧
    (save_raw_item store sourceId tier candidate t1 trustTier id1).2.rawId
      = id1 ∧
    (save_raw_item store sourceId tier candidate t1 trustTier id1).1
      = store ++ [(save_raw_item store sourceId tier candidate t1 trustTier
          id1).2] ∧
    (save_raw_item
        (save_raw_item store sourceId tier candidate t1 trustTier id1).1
        sourceId tier candidate t2 trustTier id2).2
      = { (save_raw_item store sourceId tier candidate t1 trustTier id1).2
          with fetchedAtUtc := t2 } ∧
    (save_raw_item
        (save_raw_item store sourceId tier candidate t1 trustTier id1).1
        sourceId tier candidate t2 trustTier id2).1
      = store ++
          [{ (save_raw_item store sourceId tier candidate t1 trustTier id1).2
              with fetchedAtUtc := t2 }] ∧
    (save_raw_item
        (save_raw_item store sourceId tier candidate t1 trustTier id1).1
        sourceId tier candidate t2 trustTier id2).1.length
      = store.length + 1 := by
  have h1 := save_raw_item_inserts store sourceId tier candidate t1 trustTier
    id1 hnew
  have h2 := save_raw_item_refetches store sourceId tier tier candidate t1 t2
    trustTier trustTier id1 id2 hnew
  simp only [h1, h2, true_and, and_true]
  refine ⟨rfl, rfl, by simp⟩

/-- Candidate used by the C6 witness. -/
def candidateW : Candidate :=
  ⟨some "c-1", some "Storm warning", some "u1", some "2025-01-01T00:00:00Z",
   "p1"⟩

/-- C6 witness: two saves of the same candidate into an empty store leave
exactly one row. -/
theorem save_raw_item_dedupe_witness :
    (save_raw_item
        (save_raw_item [] "rss-1" "global" candidateW "t1" (some 2) "RAW-1").1
        "rss-1" "global" candidateW "t2" (some 2) "RAW-2").1.length
      = ([] : List RawItem).length + 1 :=
  (save_raw_item_dedupe_idempotent [] "rss-1" "global" candidateW "t1" "t2"
    (some 2) "RAW-1" "RAW-2" (by simp)).2.2.2.2.2

/-- Updated rows keep their raw id, so the row stays findable. -/
theorem find?_replaceFirst_of_find? (p : RawItem → Bool)
    (f : RawItem → RawItem) (store : List RawItem) (r : RawItem)
    (hp : ∀ x, p x = true → p (f x) = true)
    (h : store.find? p = some r) :
    (replaceFirst p f store).find? p = some (f r) := by
  induction store with
  | nil => simp at h
  | cons x t ih =>
    by_cases hx : p x = true
    · rw [List.find?_cons_of_pos t hx] at h
      injection h with h
      subst h
      unfold replaceFirst
      rw [if_pos hx]
      rw [List.find?_cons_of_pos t (hp x hx)]
    · rw [List.find?_cons_of_neg t hx] at h
      unfold replaceFirst
      rw [if_neg hx]
      rw [List.find?_cons_of_neg _ hx]
      exact ih h

/-- Equation lemma of replaceFirst at a matching head. -/
theorem replaceFirst_cons_pos (p : RawItem → Bool) (f : RawItem → RawItem)
    (x : RawItem) (t : List RawItem) (hx : p x = true) :
    replaceFirst p f (x :: t) = f x :: t := by
  unfold replaceFirst
  rw [if_pos hx]

theorem replaceFirst_cons_neg (p : RawItem → Bool) (f : RawItem → RawItem)
    (x : RawItem) (t : List RawItem) (hx : ¬ p x = true) :
    replaceFirst p f (x :: t) = x :: replaceFirst p f t := by
  unfold replaceFirst
  rw [if_neg hx]
  cases t <;> rfl

/-- Replacing again changes nothing when the replacement is idempotent. -/
theorem replaceFirst_idem (p : RawItem → Bool) (f : RawItem → RawItem)
    (store : List RawItem)
    (hp : ∀ x, p x = true → p (f x) = true)
    (hf : ∀ x, p x = true → f (f x) = f x) :
    replaceFirst p f (replaceFirst p f store) = replaceFirst p f store := by
  induction store with
  | nil => rfl
  | cons x t ih =>
    by_cases hx : p x = true
    · rw [replaceFirst_cons_pos p f x t hx,
        replaceFirst_cons_pos p f (f x) t (hp x hx), hf x hx]
    · rw [replaceFirst_cons_neg p f x t hx,
        replaceFirst_cons_neg p f x _ hx, ih]

/-- Raw item row in the terminal state NORMALIZED, used by C7 and C10. -/
def normalizedRowW : RawItem :=
  { rawId := "RAW-1", sourceId := "rss-1", tier := "global"
    fetchedAtUtc := "2025-01-01T00:00:00+00:00", publishedAtUtc := none
    canonicalId := some "c-1", url := none, title := some "Item"
    rawPayloadJson := "p1"
    contentHash := ⟨some "c-1", some "Item", none, none, "p1"⟩
    status := "NORMALIZED", error := none, trustTier := some 2 }

/-- C7 counterexample.  The claim says setting a new status from a
terminal state is an error; mark_raw_item_status instead silently
overwrites: marking a NORMALIZED row FAILED returns normally and the row
ends up FAILED. -/
theorem terminal_status_overwritten :
    normalizedRowW.status = "NORMALIZED" ∧
    mark_raw_item_status [normalizedRowW] "RAW-1" "FAILED" (some "boom")
      = [{ normalizedRowW with status := "FAILED", error := some "boom" }] := by
  refine ⟨rfl, ?_⟩
  decide

/-- C7 amended.  mark_raw_item_status is idempotent when called again with
the same status (and error); and when a row with the raw id exists, the
new status is applied unconditionally — a terminal current status is not
rejected, merely overwritten. -/
theorem mark_status_idempotent_and_overwrites :
    (∀ (store : List RawItem) (rawId status : String) (error : Option String),
      mark_raw_item_status (mark_raw_item_status store rawId status error)
        rawId status error
        = mark_raw_item_status store rawId status error) ∧
    (∀ (store : List RawItem) (rawId status : String) (error : Option String)
        (r : RawItem),
      store.find? (fun x => decide (x.rawId = rawId)) = some r →
      (mark_raw_item_status store rawId status error).find?
          (fun x => decide (x.rawId = rawId))
        = some { r with
                 status := status,
                 error := if truthyOptStr error then error else r.error }) := by
  have hp : ∀ (rawId status : String) (error : Option String) (x : RawItem),
      decide (x.rawId = rawId) = true →
      decide (({ x with
                 status := status,
                 error := if truthyOptStr error then error
                   else x.error } : RawItem).rawId = rawId) = true := by
    intro rawId status error x hx
    exact hx
  have hf : ∀ (status : String) (error : Option String) (x : RawItem),
      ({ ({ x with
            status := status,
            error := if truthyOptStr error then error else x.error } : RawItem)
          with
          status := status,
          error := if truthyOptStr error then error
            else (if truthyOptStr error then error else x.error) } : RawItem)
        = { x with
            status := status,
            error := if truthyOptStr error then error else x.error } := by
    intro status error x
    by_cases ht : truthyOptStr error = true
    · simp [ht]
    · simp [ht]
  constructor
  · intro store rawId status error
    rcases h : store.find? (fun x => decide (x.rawId = rawId)) with _ | r
    · unfold mark_raw_item_status
      rw [h]
      rw [h]
    · have h2 := find?_replaceFirst_of_find?
        (fun x => decide (x.rawId = rawId))
        (fun x => { x with
          status := status,
          error := if truthyOptStr error then error else x.error })
        store r (hp rawId status error) h
      have hmark : mark_raw_item_status store rawId status error
          = replaceFirst (fun x => decide (x.rawId = rawId))
            (fun x => { x with
              status := status,
              error := if truthyOptStr error then error else x.error })
            store := by
        unfold mark_raw_item_status
        rw [h]
      have hmark2 : mark_raw_item_status
            (replaceFirst (fun x => decide (x.rawId = rawId))
              (fun x => { x with
                status := status,
                error := if truthyOptStr error then error else x.error })
              store) rawId status error
          = replaceFirst (fun x => decide (x.rawId = rawId))
            (fun x => { x with
              status := status,
              error := if truthyOptStr error then error else x.error })
            (replaceFirst (fun x => decide (x.rawId = rawId))
              (fun x => { x with
                status := status,
                error := if truthyOptStr error then error else x.error })
              store) := by
        unfold mark_raw_item_status
        rw [h2]
      rw [hmark, hmark2]
      exact replaceFirst_idem _ _ _ (hp rawId status error)
        (fun x _ => hf status error x)
  · intro store rawId status error r h
    have h2 := find?_replaceFirst_of_find?
      (fun x => decide (x.rawId = rawId))
      (fun x => { x with
        status := status,
        error := if truthyOptStr error then error else x.error })
      store r (hp rawId status error) h
    unfold mark_raw_item_status
    rw [h]
    exact h2

/-- C10.  Marking a raw id that matches no stored row is a silent no-op:
the function returns (total, no exception path) and the store is
unchanged. -/
theorem mark_status_missing_id_is_noop (store : List RawItem)
    (rawId status : String) (error : Option String)
    (h : ∀ r ∈ store, r.rawId ≠ rawId) :
    mark_raw_item_status store rawId status error = store := by
  have hf : store.find? (fun r => decide (r.rawId = rawId)) = none := by
    apply find?_eq_none_of_all_false
    intro r hr
    exact decide_eq_false (h r hr)
  unfold mark_raw_item_status
  rw [hf]

/-- C10 witness: marking an absent raw id on a one-row store changes
nothing. -/
theorem mark_status_missing_id_witness :
    mark_raw_item_status [normalizedRowW] "RAW-404" "FAILED" none
      = [normalizedRowW] :=
  mark_status_missing_id_is_noop [normalizedRowW] "RAW-404" "FAILED" none
    (by decide)
